import Mathlib

set_option maxRecDepth 10000

/-!
Shallow embedding of the CORE of the AI_Web_Scraper repository
(`parse_gemini.py`): the Gemini chunk-processing pipeline with MD5-keyed
result caching, a sleep-based rate limiter, quota/transient retry with
exponential backoff, and the batch orchestration loop `parse_with_gemini`.

Modelling conventions:
- Wall-clock time (`time.time()`, `datetime.now()`) is an `Int` number of
  seconds.  `time.sleep(d)` advances the clock by exactly `d`.
- The on-disk cache directory is a list of `(cache_key, CacheFile)` pairs,
  one entry per file `<cache_key>.json`; `CacheFile.ctime` is the file
  creation time seen by `os.path.getctime`, `CacheFile.timestamp` is the
  JSON `timestamp` field written by `_save_to_cache` (both equal the clock
  value at the moment of the write).  A file that exists but is unreadable
  behaves as a miss in the source and is modelled as absent.
- The Gemini API (`model.generate_content`) is an oracle
  `prompt → attempt-index → ApiResult`: either the response text
  (`response.text`, with a falsy/None text modelled as `""`) or a raised
  exception carrying its message string.  The call itself is modelled as
  taking no wall-clock time; only sleeps advance the clock.
- Python exceptions escaping a method are `Except.error msg`.
-/

namespace Scraper

/-! ### MD5 (hashlib.md5(...).hexdigest()) over Nat arithmetic mod 2^32 -/

def mask32 (n : Nat) : Nat := n &&& 0xFFFFFFFF

def rotl32 (x s : Nat) : Nat := mask32 ((x <<< s) ||| (x >>> (32 - s)))

/-- UTF-8 encoding of one Unicode code point, as bytes (`str.encode()`). -/
def utf8EncodeCodePoint (c : Nat) : List Nat :=
  if c < 0x80 then [c]
  else if c < 0x800 then [0xC0 ||| (c >>> 6), 0x80 ||| (c &&& 0x3F)]
  else if c < 0x10000 then
    [0xE0 ||| (c >>> 12), 0x80 ||| ((c >>> 6) &&& 0x3F), 0x80 ||| (c &&& 0x3F)]
  else
    [0xF0 ||| (c >>> 18), 0x80 ||| ((c >>> 12) &&& 0x3F),
     0x80 ||| ((c >>> 6) &&& 0x3F), 0x80 ||| (c &&& 0x3F)]

def strUtf8 (s : String) : List Nat :=
  s.data.foldr (fun c acc => utf8EncodeCodePoint c.toNat ++ acc) []

/-- Little-endian byte list of `n` (low byte first, `count` bytes). -/
def leBytes (n count : Nat) : List Nat :=
  (List.range count).map (fun i => (n >>> (8 * i)) &&& 0xFF)

/-- MD5 padding: append 0x80, zero bytes to 56 mod 64, then the 64-bit
little-endian bit length. -/
def md5pad (msg : List Nat) : List Nat :=
  msg ++ [0x80] ++ List.replicate ((119 - msg.length % 64) % 64) 0
      ++ leBytes (8 * msg.length) 8

/-- Per-round left-rotate amounts. -/
def md5s : List Nat :=
  [7, 12, 17, 22, 7, 12, 17, 22, 7, 12, 17, 22, 7, 12, 17, 22,
   5, 9, 14, 20, 5, 9, 14, 20, 5, 9, 14, 20, 5, 9, 14, 20,
   4, 11, 16, 23, 4, 11, 16, 23, 4, 11, 16, 23, 4, 11, 16, 23,
   6, 10, 15, 21, 6, 10, 15, 21, 6, 10, 15, 21, 6, 10, 15, 21]

/-- Round constants `K[i] = floor(abs(sin(i+1)) * 2^32)`. -/
def md5K : List Nat :=
  [0xd76aa478, 0xe8c7b756, 0x242070db, 0xc1bdceee,
   0xf57c0faf, 0x4787c62a, 0xa8304613, 0xfd469501,
   0x698098d8, 0x8b44f7af, 0xffff5bb1, 0x895cd7be,
   0x6b901122, 0xfd987193, 0xa679438e, 0x49b40821,
   0xf61e2562, 0xc040b340, 0x265e5a51, 0xe9b6c7aa,
   0xd62f105d, 0x02441453, 0xd8a1e681, 0xe7d3fbc8,
   0x21e1cde6, 0xc33707d6, 0xf4d50d87, 0x455a14ed,
   0xa9e3e905, 0xfcefa3f8, 0x676f02d9, 0x8d2a4c8a,
   0xfffa3942, 0x8771f681, 0x6d9d6122, 0xfde5380c,
   0xa4beea44, 0x4bdecfa9, 0xf6bb4b60, 0xbebfbc70,
   0x289b7ec6, 0xeaa127fa, 0xd4ef3085, 0x04881d05,
   0xd9d4d039, 0xe6db99e5, 0x1fa27cf8, 0xc4ac5665,
   0xf4292244, 0x432aff97, 0xab9423a7, 0xfc93a039,
   0x655b59c3, 0x8f0ccc92, 0xffeff47d, 0x85845dd1,
   0x6fa87e4f, 0xfe2ce6e0, 0xa3014314, 0x4e0811a1,
   0xf7537e82, 0xbd3af235, 0x2ad7d2bb, 0xeb86d391]

/-- Little-endian 32-bit word from (up to) four bytes. -/
def bytesToWord (bs : List Nat) : Nat :=
  bs.foldr (fun b acc => b + (acc <<< 8)) 0

/-- One MD5 round on state (A, B, C, D) with message-word selector `M`. -/
def md5round (M : Nat → Nat) (st : Nat × Nat × Nat × Nat) (i : Nat) :
    Nat × Nat × Nat × Nat :=
  let A := st.1
  let B := st.2.1
  let C := st.2.2.1
  let D := st.2.2.2
  let FG : Nat × Nat :=
    if i < 16 then ((B &&& C) ||| ((B ^^^ 0xFFFFFFFF) &&& D), i)
    else if i < 32 then ((D &&& B) ||| ((D ^^^ 0xFFFFFFFF) &&& C), (5 * i + 1) % 16)
    else if i < 48 then (B ^^^ C ^^^ D, (3 * i + 5) % 16)
    else (C ^^^ (B ||| (D ^^^ 0xFFFFFFFF)), (7 * i) % 16)
  let F2 := mask32 (FG.1 + A + md5K.getD i 0 + M FG.2)
  (D, mask32 (B + rotl32 F2 (md5s.getD i 0)), B, C)

/-- Process one 64-byte block. -/
def md5block (st : Nat × Nat × Nat × Nat) (blk : List Nat) :
    Nat × Nat × Nat × Nat :=
  let M : Nat → Nat := fun g => bytesToWord ((blk.drop (4 * g)).take 4)
  let r := (List.range 64).foldl (md5round M) st
  (mask32 (st.1 + r.1), mask32 (st.2.1 + r.2.1),
   mask32 (st.2.2.1 + r.2.2.1), mask32 (st.2.2.2 + r.2.2.2))

def md5processBlocks (st : Nat × Nat × Nat × Nat) (bs : List Nat) :
    Nat × Nat × Nat × Nat :=
  (List.range (bs.length / 64)).foldl
    (fun acc i => md5block acc ((bs.drop (64 * i)).take 64)) st

def hexDigit (n : Nat) : Char :=
  if n < 10 then Char.ofNat (48 + n) else Char.ofNat (87 + n)

def byteHex (b : Nat) : List Char := [hexDigit (b / 16), hexDigit (b % 16)]

/-- Model of `hashlib.md5(s.encode()).hexdigest()`. -/
def md5Hex (s : String) : String :=
  let bs := md5pad (strUtf8 s)
  let r := md5processBlocks (0x67452301, 0xefcdab89, 0x98badcfe, 0x10325476) bs
  let digestBytes := leBytes r.1 4 ++ leBytes r.2.1 4 ++ leBytes r.2.2.1 4 ++ leBytes r.2.2.2 4
  String.mk (digestBytes.map byteHex).flatten

/-! ### Python string primitives

Character-list models of the CPython string operations the source uses
(`.lower()`, `.strip()`, `.startswith()`, `in`); they agree with CPython on
the ASCII range. -/

/-- The whitespace stripped by Python `str.strip()` (ASCII portion). -/
def pyIsSpace (c : Char) : Bool :=
  c == ' ' || c == '\t' || c == '\n' || c == '\r' || c == '\x0b' || c == '\x0c'

/-- Python `str.strip()`: drop whitespace from both ends. -/
def pyStrip (s : String) : String :=
  String.mk (List.rdropWhile pyIsSpace (s.data.dropWhile pyIsSpace))

/-- Python `str.lower()`. -/
def pyLower (s : String) : String := String.mk (s.data.map Char.toLower)

/-- Python `s.startswith(pre)`. -/
def pyStartsWith (s pre : String) : Bool := List.isPrefixOf pre.data s.data

def listContains : List Char → List Char → Bool
  | [], sub => List.isPrefixOf sub []
  | l@(_ :: t), sub => List.isPrefixOf sub l || listContains t sub

/-- Python `sub in s` (substring containment). -/
def strContains (s sub : String) : Bool := listContains s.data sub.data

/-! ### Cache store

One entry per file `<cache_key>.json` in the cache directory; `ctime` is the
filesystem creation time used by `clear_old_cache`, `timestamp` the JSON
field used by `_is_cache_valid`.  `_get_cache_path` is a bijection between
keys and paths, so the model indexes files directly by cache key. -/

structure CacheFile where
  ctime : Int
  timestamp : Int
  cache_key : String
  result : String
  deriving Repr, DecidableEq

/-- Mutable parser state: the cache directory contents, the wall clock, and
the fields of `GeminiParser` (`last_api_call`, `cache_duration` in seconds,
`rate_limit_delay` in seconds). -/
structure ParserState where
  files : List (String × CacheFile)
  now : Int
  last_api_call : Int
  cache_duration : Int
  rate_limit_delay : Int
  deriving Repr, DecidableEq

/-- The file stored for a key, if one exists (first match; `_save_to_cache`
keeps at most one file per key). -/
def lookupFile (files : List (String × CacheFile)) (key : String) : Option CacheFile :=
  (files.find? (fun p => p.1 == key)).map (fun p => p.2)

/-- Model of `GeminiParser._get_cache_key`:
`hashlib.md5(f"\x7bcontent\x7d|\x7bparse_description\x7d".encode()).hexdigest()`. -/
def _get_cache_key (content parse_description : String) : String :=
  md5Hex (content ++ "|" ++ parse_description)

/-- Model of `GeminiParser._is_cache_valid`: the file exists, parses, and
`datetime.now() - cached_time < self.cache_duration`. -/
def _is_cache_valid (st : ParserState) (key : String) : Bool :=
  match lookupFile st.files key with
  | none => false
  | some f => decide (st.now - f.timestamp < st.cache_duration)

/-- Model of `GeminiParser._load_from_cache`: re-reads the file when valid and
returns its `result` field, else `None`. -/
def _load_from_cache (st : ParserState) (key : String) : Option String :=
  if _is_cache_valid st key then (lookupFile st.files key).map (fun f => f.result)
  else none

/-- Model of `GeminiParser._save_to_cache`: writes (overwrites) the file for the key with
the current time as both its JSON `timestamp` and its filesystem ctime. -/
def _save_to_cache (st : ParserState) (key result : String) : ParserState :=
  { st with files :=
      (key, { ctime := st.now, timestamp := st.now, cache_key := key, result := result })
        :: st.files.filter (fun p => p.1 != key) }

/-- Model of `GeminiParser.clear_old_cache` (threshold already converted to seconds):
deletes files whose ctime is before `now - older_than`; returns the new
state and the number of files cleared. -/
def clear_old_cache (st : ParserState) (older_than_seconds : Int) : ParserState × Nat :=
  let cutoff_time := st.now - older_than_seconds
  ({ st with files := st.files.filter (fun p => !(decide (p.2.ctime < cutoff_time))) },
   (st.files.filter (fun p => decide (p.2.ctime < cutoff_time))).length)

/-! ### Rate limiter -/

/-- Model of `GeminiParser._enforce_rate_limit` as a pure function of the delay, the
current clock and `last_api_call`: returns the clock value when the method
returns (after sleeping `delay - time_since_last_call` if needed) and the
new `last_api_call` (set to `time.time()` after the sleep). -/
def _enforce_rate_limit (delay now last : Int) : Int × Int :=
  if now - last < delay then (last + delay, last + delay) else (now, now)

/-- Action of `_enforce_rate_limit` on the parser state. -/
def enforceRateLimit (st : ParserState) : ParserState :=
  let p := _enforce_rate_limit st.rate_limit_delay st.now st.last_api_call
  { st with now := p.1, last_api_call := p.2 }

/-- Model of `time.sleep(d)`: the clock advances by `d`. -/
def sleepSecs (st : ParserState) (d : Int) : ParserState := { st with now := st.now + d }

/-- Return times of a sequence of `_enforce_rate_limit` calls: given the
initial `last_api_call` and the clock value at the start of each call, the
clock value at which each call returns (the moment the API call launches). -/
def rl_returns (delay : Int) : Int → List Int → List Int
  | _, [] => []
  | last, s :: rest =>
    let p := _enforce_rate_limit delay s last
    p.1 :: rl_returns delay p.2 rest

/-- Sequential validity of a trace of call start times: each call starts no
earlier than the previous call returned (execution is single-threaded). -/
def rl_valid (delay : Int) : Int → List Int → Bool
  | _, [] => true
  | last, s :: rest =>
    let p := _enforce_rate_limit delay s last
    match rest with
    | [] => true
    | s2 :: _ => decide (p.1 ≤ s2) && rl_valid delay p.2 rest

/-! ### Quota handling and retry -/

/-- The quota classification used at `process_single_chunk` line 191 and
inside `_handle_quota_error`: `"429" in msg or "quota" in msg.lower()`. -/
def isQuotaError (msg : String) : Bool :=
  strContains msg "429" || strContains (pyLower msg) "quota"

/-- The exponential-backoff wait `min(60 * (2 ** attempt), 300)` seconds. -/
def quota_wait (attempt : Nat) : Int := min (60 * 2 ^ attempt) 300

/-- Model of `GeminiParser._handle_quota_error`: on a quota-type message, sleeps the
backoff wait and returns `attempt + 1`; otherwise re-raises the message. -/
def _handle_quota_error (st : ParserState) (msg : String) (attempt : Nat) :
    Except String (Nat × ParserState) :=
  if isQuotaError msg then .ok (attempt + 1, sleepSecs st (quota_wait attempt))
  else .error msg

/-! ### Chunk processor -/

/-- Outcome of one `model.generate_content` call: the response text
(`response.text`, with a falsy/None text modelled as `""`) or a raised
message of the raised exception.  An oracle `String → Nat → ApiResult` gives the
outcome for each (prompt, per-chunk attempt index) pair. -/
inductive ApiResult where
  | success (text : String)
  | failure (msg : String)
  deriving Repr, DecidableEq

/-- Model of `GeminiParser.create_parsing_prompt` (the f-string template with
`content` and `parse_description` interpolated). -/
def create_parsing_prompt (content parse_description : String) : String :=
  "You are an expert data extractor. Your task is to extract information from the following content:\n\n"
  ++ content
  ++ "\n\nPlease carefully follow these instructions:\n\n1. **Objective**: Extract exactly what is described below:\n    **"
  ++ parse_description
  ++ "**\n\n2. **Output Format**:\n    - If the description or question specifies a format (e.g., list, markdown table, plain text), deliver the output in that format.\n    - If the format request is mentioned in a conversational way (like \"show me in a table\"), still deliver in that format.\n    - Do not include any extra explanation, commentary, or notes.\n\n3. **No Duplicates**: Only show each unique item once. Remove any duplicate entries.\n\n4. **Understanding User Intent**: If the format is not explicitly mentioned in the description but is requested in the question, respect that format.\n\n5. **No Additional Text**: Your response must contain only the extracted information in the requested format.\n\n6. **No Match Found**: If no matching information is found, return an empty string (\x27\x27)"

/-- The give-up marker after quota retries are exhausted (line 197). -/
def maxRetriesMsg : String :=
  "❌ Max retries reached due to quota limits. Please wait and try again later."

/-- The unreachable fall-through message after the `while` loop (line 212). -/
def failedMsg : String := "❌ Failed to process chunk after multiple attempts"

/-- The `while attempt <= max_retries` retry loop of `process_single_chunk`,
entered after a cache miss.  `fuel` bounds the iterations; starting at
`max_retries + 1` with `attempt = 0` it reaches `0` exactly when `attempt`
becomes `max_retries + 1`, i.e. when the `while` guard fails and the
function falls through to its final `return`.  Each iteration enforces the
rate limit, queries the API oracle with the constructed prompt, and either
returns (trimmed non-empty text is cached first), backs off and retries, or
gives up with the corresponding marker string. -/
def attemptLoop (api : String → Nat → ApiResult) (chunk parse_description key : String)
    (max_retries : Nat) :
    Nat → Nat → ParserState → Except String (String × ParserState)
  | 0, _, st => .ok (failedMsg, st)
  | fuel + 1, attempt, st =>
    if attempt ≤ max_retries then
      let st1 := enforceRateLimit st
      match api (create_parsing_prompt chunk parse_description) attempt with
      | .success t =>
        if pyStrip t ≠ "" then .ok (pyStrip t, _save_to_cache st1 key (pyStrip t))
        else .ok ("", st1)
      | .failure msg =>
        if isQuotaError msg then
          if attempt < max_retries then
            match _handle_quota_error st1 msg attempt with
            | .ok p => attemptLoop api chunk parse_description key max_retries fuel p.1 p.2
            | .error m => .error m
          else .ok (maxRetriesMsg, st1)
        else
          if attempt < max_retries then
            attemptLoop api chunk parse_description key max_retries fuel (attempt + 1) (sleepSecs st1 5)
          else .ok ("Error: " ++ msg, st1)
    else .ok (failedMsg, st)

/-- Model of `GeminiParser.process_single_chunk`: cache lookup first, else the retry
loop.  `Except.error` is an exception escaping the method (possible in the
source only via the unreachable re-raise in `_handle_quota_error`). -/
def process_single_chunk (api : String → Nat → ApiResult) (st : ParserState)
    (chunk parse_description : String) (max_retries : Nat) :
    Except String (String × ParserState) :=
  let cache_key := _get_cache_key chunk parse_description
  match _load_from_cache st cache_key with
  | some r => .ok (r, st)
  | none => attemptLoop api chunk parse_description cache_key max_retries (max_retries + 1) 0 st

/-! ### Batch orchestrator (`parse_with_gemini`) -/

def sectionHeader (i : Nat) (result : String) : String :=
  "--- From Section " ++ toString i ++ " ---\n" ++ result

def stopNotice (i : Nat) : String :=
  "--- Processing stopped at section " ++ toString i ++ " due to quota limits ---"

/-- The `for i, chunk in enumerate(dom_chunks, start=1)` loop.  The
`progress_callback` is modelled as absent, and the cache-hit/API-call
counters (which feed only `print` statements) are omitted; the second
read-only `_load_from_cache` probe on line 307 likewise only feeds those
counters.  The per-chunk `try/except ... continue` catches an exception
escaping `process_single_chunk` and moves to the next chunk. -/
def parseLoop (api : String → Nat → ApiResult) (parse_description : String) :
    List String → Nat → List String → ParserState → List String × ParserState
  | [], _, acc, st => (acc, st)
  | chunk :: rest, i, acc, st =>
    match process_single_chunk api st chunk parse_description 3 with
    | .error _ => parseLoop api parse_description rest (i + 1) acc st
    | .ok (result, st1) =>
      if result ≠ "" ∧ pyStrip result ≠ "" ∧ pyStartsWith result "❌" = false then
        if strContains (pyLower result) "no relevant information found" = false then
          parseLoop api parse_description rest (i + 1) (acc ++ [sectionHeader i result]) st1
        else
          parseLoop api parse_description rest (i + 1) acc st1
      else if pyStartsWith result "❌" = true then
        if strContains result "Max retries reached" = true then
          (acc ++ [stopNotice i], st1)
        else
          parseLoop api parse_description rest (i + 1) acc st1
      else
        parseLoop api parse_description rest (i + 1) acc st1

/-- The fixed apology returned when no section results were accumulated. -/
def apology : String :=
  "Sorry, I couldn\x27t find any relevant information for your query due to API quota limits. Please try again later or upgrade your plan."

/-- Body of the outer `try` of `parse_with_gemini`: builds a parser with
`rate_limit_delay=5` and the default 24h cache freshness, runs the loop over
the chunks, then prints the summary — whose quota-efficiency line divides by
`total_chunks` and raises `ZeroDivisionError` when the chunk list is empty —
and finally joins the accumulated sections (or returns the apology). -/
def parse_body (api : String → Nat → ApiResult) (files0 : List (String × CacheFile))
    (t0 : Int) (dom_chunks : List String) (parse_description : String) :
    Except String String :=
  let st0 : ParserState :=
    { files := files0, now := t0, last_api_call := 0,
      cache_duration := 86400, rate_limit_delay := 5 }
  let total_chunks := dom_chunks.length
  let r := parseLoop api parse_description dom_chunks 1 [] st0
  if total_chunks = 0 then .error "division by zero"
  else if r.1.isEmpty then .ok apology
  else .ok (String.intercalate "\n\n" r.1)

/-- Model of `parse_with_gemini`: the outer `except Exception` turns any escaping
exception into an `"Error: ..."` string, so the entry point always returns
a string. -/
def parse_with_gemini (api : String → Nat → ApiResult)
    (files0 : List (String × CacheFile)) (t0 : Int)
    (dom_chunks : List String) (parse_description : String) : String :=
  match parse_body api files0 t0 dom_chunks parse_description with
  | .ok s => s
  | .error e => "Error: " ++ e ++ ". Please check your Google API key and quota limits."

/-! ### Concrete scenario oracles -/

/-- Oracle for the partial-failure scenario: the prompt built from chunk
`"B"` raises the non-quota error `"boom"` on every attempt, while the
prompts for `"A"` and `"C"` succeed. -/
def apiTransientB : String → Nat → ApiResult := fun p _ =>
  if p = create_parsing_prompt "B" "q" then .failure "boom"
  else if p = create_parsing_prompt "A" "q" then .success "resA"
  else .success "resC"

/-- Oracle for the early-stop scenario: the prompt built from chunk `"A"`
succeeds, every other prompt raises a 429 quota error. -/
def apiQuotaAfterA : String → Nat → ApiResult := fun p _ =>
  if p = create_parsing_prompt "A" "q" then .success " got it " else .failure "429"

/-! ### Helper lemmas -/

/-- Sanity check of the MD5 model against the RFC 1321 test vector. -/
theorem md5Hex_abc : md5Hex "abc" = "900150983cd24fb0d6963f7d28e17f72" := by decide

/-- Sanity check: MD5 of the empty string. -/
theorem md5Hex_empty : md5Hex "" = "d41d8cd98f00b204e9800998ecf8427e" := by decide

theorem enforce_fst_ge (d n l : Int) : l + d ≤ (_enforce_rate_limit d n l).1 := by
  unfold _enforce_rate_limit
  split <;> omega

theorem enforce_snd_eq (d n l : Int) :
    (_enforce_rate_limit d n l).2 = (_enforce_rate_limit d n l).1 := by
  unfold _enforce_rate_limit
  split <;> rfl

theorem enforceRateLimit_files (st : ParserState) : (enforceRateLimit st).files = st.files := rfl

theorem enforceRateLimit_duration (st : ParserState) :
    (enforceRateLimit st).cache_duration = st.cache_duration := rfl

theorem enforceRateLimit_now_ge (st : ParserState) : st.now ≤ (enforceRateLimit st).now := by
  unfold enforceRateLimit _enforce_rate_limit
  by_cases h : st.now - st.last_api_call < st.rate_limit_delay
  · simp only [h, if_pos, if_true]
    omega
  · simp [h]

theorem dropWhile_eq_self_of_isPrefixOf {p : Char → Bool} {d m : List Char}
    (hpre : d <+: m) (hm : List.dropWhile p m = m) : List.dropWhile p d = d := by
  cases d with
  | nil => rfl
  | cons a t =>
    obtain ⟨r, hr⟩ := hpre
    have hpa : p a = false := by
      by_contra hpa
      rw [Bool.not_eq_false] at hpa
      rw [← hr, List.cons_append, List.dropWhile_cons_of_pos hpa] at hm
      have h1 : (List.dropWhile p (t ++ r)).length ≤ (t ++ r).length :=
        (List.dropWhile_sublist p).length_le
      have h2 : (List.dropWhile p (t ++ r)).length = (t ++ r).length + 1 := by
        rw [hm]
        simp
      omega
    simp [List.dropWhile_cons_of_neg, hpa]

/-- Python `strip()` is idempotent. -/
theorem pyStrip_idem (s : String) : pyStrip (pyStrip s) = pyStrip s := by
  unfold pyStrip
  congr 1
  have key : List.dropWhile pyIsSpace
      (List.rdropWhile pyIsSpace (s.data.dropWhile pyIsSpace)) =
      List.rdropWhile pyIsSpace (s.data.dropWhile pyIsSpace) :=
    dropWhile_eq_self_of_isPrefixOf ( List.rdropWhile_prefix _ _)
      (List.dropWhile_idempotent _ _)
  rw [show (String.mk (List.rdropWhile pyIsSpace (s.data.dropWhile pyIsSpace))).data =
        List.rdropWhile pyIsSpace (s.data.dropWhile pyIsSpace) from rfl]
  rw [key, List.rdropWhile_idempotent]

/-- A cache miss stays a miss at any later time over the same files: absence
is preserved, and an expired entry only gets older. -/
theorem load_none_of_le (st st' : ParserState) (key : String)
    (hf : st'.files = st.files) (hd : st'.cache_duration = st.cache_duration)
    (hn : st.now ≤ st'.now) (h : _load_from_cache st key = none) :
    _load_from_cache st' key = none := by
  unfold _load_from_cache _is_cache_valid at h ⊢
  rw [hf, hd]
  cases hfind : lookupFile st.files key with
  | none => simp [hfind]
  | some f =>
    rw [hfind] at h
    by_cases hlt : st.now - f.timestamp < st.cache_duration
    · simp [hlt] at h
    · have hlt' : ¬ (st'.now - f.timestamp < st.cache_duration) := by omega
      simp [hlt']

/-! ### Claim theorems -/

/-- C10: cache-key pair-boundary insensitivity.  For all strings `a b c`,
the cache key for content `a ++ "|" ++ b` with instruction `c` equals the
cache key for content `a` with instruction `b ++ "|" ++ c`: the key is the
digest of the single joined string `content ++ "|" ++ instruction`, and the
pair boundary is not otherwise encoded. -/
theorem cache_key_pair_boundary (a b c : String) :
    _get_cache_key (a ++ "|" ++ b) c = _get_cache_key a (b ++ "|" ++ c) := by
  unfold _get_cache_key
  congr 1
  simp [String.append_assoc]

/-- C3 counterexample: the pairs `("a|b", "c")` and `("a", "b|c")` are
distinct, yet `_get_cache_key` assigns them the identical key (with
certainty, not merely failing "with overwhelming probability"), because both
join to the same string `"a|b|c"` before hashing. -/
theorem cache_key_distinct_pairs_collide :
    (("a|b", "c") : String × String) ≠ ("a", "b|c") ∧
    _get_cache_key "a|b" "c" = _get_cache_key "a" "b|c" := by
  exact ⟨by decide, rfl⟩

/-- C3 (amended): the key derivation is a pure function of the joined
string `content ++ "|" ++ instruction`: any two pairs with equal joins — in
particular two computations on the identical pair — receive the identical
key.  Distinct pairs therefore get distinct keys only when their joins
differ (the collision resistance of MD5 on distinct joins is a
probabilistic property outside this model). -/
theorem cache_key_pure_in_joined_string (c₁ i₁ c₂ i₂ : String)
    (h : c₁ ++ "|" ++ i₁ = c₂ ++ "|" ++ i₂) :
    _get_cache_key c₁ i₁ = _get_cache_key c₂ i₂ := by
  unfold _get_cache_key
  rw [h]

/-- Witness for C3 (amended) at a concrete input. -/
theorem cache_key_pure_in_joined_string_witness :
    ("x" ++ "|" ++ "y" = "x" ++ "|" ++ "y") ∧
    _get_cache_key "x" "y" = _get_cache_key "x" "y" :=
  ⟨rfl, cache_key_pure_in_joined_string "x" "y" "x" "y" rfl⟩

/-- C4: quota backoff schedule.  On a quota-type failure at 0-indexed
attempt `n`, `_handle_quota_error` sleeps exactly
`quota_wait n = min(60 * 2^n, 300)` seconds and returns `n + 1`; the waits
at attempts 0, 1, 2 are 60, 120, 240 seconds, and the wait never exceeds
300 seconds. -/
theorem quota_backoff_schedule (st : ParserState) (msg : String) (attempt : Nat)
    (h : isQuotaError msg = true) :
    _handle_quota_error st msg attempt =
      .ok (attempt + 1, sleepSecs st (quota_wait attempt)) ∧
    quota_wait 0 = 60 ∧ quota_wait 1 = 120 ∧ quota_wait 2 = 240 ∧
    ∀ n : Nat, quota_wait n ≤ 300 := by
  refine ⟨?_, by decide, by decide, by decide, fun n => min_le_right _ _⟩
  unfold _handle_quota_error
  rw [h]
  simp

/-- Witness for C4 at a concrete quota error message and state. -/
theorem quota_backoff_schedule_witness :
    isQuotaError "429 Resource has been exhausted" = true ∧
    (_handle_quota_error ⟨[], 0, 0, 86400, 5⟩ "429 Resource has been exhausted" 0 =
      .ok (1, sleepSecs ⟨[], 0, 0, 86400, 5⟩ (quota_wait 0)) ∧
     quota_wait 0 = 60 ∧ quota_wait 1 = 120 ∧ quota_wait 2 = 240 ∧
     ∀ n : Nat, quota_wait n ≤ 300) :=
  ⟨by decide,
   quota_backoff_schedule ⟨[], 0, 0, 86400, 5⟩ "429 Resource has been exhausted" 0 (by decide)⟩

/-- C5: cache round-trip.  Saving result `X` under a key and immediately
looking the key up (same clock value, positive configured freshness
duration) returns exactly `X`. -/
theorem cache_round_trip (st : ParserState) (key X : String)
    (hdur : 0 < st.cache_duration) :
    _load_from_cache (_save_to_cache st key X) key = some X := by
  unfold _load_from_cache _is_cache_valid lookupFile _save_to_cache
  simp [List.find?_cons_of_pos]
  omega

/-- Witness for C5 at a concrete state, key and result. -/
theorem cache_round_trip_witness :
    (0 : Int) < (⟨[], 1000, 0, 86400, 5⟩ : ParserState).cache_duration ∧
    _load_from_cache (_save_to_cache ⟨[], 1000, 0, 86400, 5⟩ "k" "X") "k" = some "X" :=
  ⟨by decide, cache_round_trip ⟨[], 1000, 0, 86400, 5⟩ "k" "X" (by decide)⟩

/-- C6: cache expiry.  A stored entry whose timestamp is at least the
configured freshness duration old is treated as absent by
`_load_from_cache`, even though the entry still physically exists in the
store and `clear_old_cache` with a larger age threshold does not remove
it. -/
theorem cache_expiry (st : ParserState) (key : String) (f : CacheFile) (thr : Int)
    (hfind : lookupFile st.files key = some f)
    (hexp : st.cache_duration ≤ st.now - f.timestamp)
    (hctime : st.now - f.ctime < thr) :
    _load_from_cache st key = none ∧
    (key, f) ∈ st.files ∧
    (key, f) ∈ (clear_old_cache st thr).1.files := by
  have hload : _load_from_cache st key = none := by
    unfold _load_from_cache _is_cache_valid
    rw [hfind]
    have : ¬ (st.now - f.timestamp < st.cache_duration) := by omega
    simp [this]
  have hmem : (key, f) ∈ st.files := by
    unfold lookupFile at hfind
    cases hp : List.find? (fun p => p.1 == key) st.files with
    | none => rw [hp] at hfind; simp at hfind
    | some p =>
      rw [hp] at hfind
      simp at hfind
      have hmem' := List.mem_of_find?_eq_some hp
      have hpred := List.find?_some hp
      have h1 : p.1 = key := by simpa using hpred
      have : p = (key, f) := by
        cases p
        simp_all
      rwa [this] at hmem'
  refine ⟨hload, hmem, ?_⟩
  unfold clear_old_cache
  simp only [List.mem_filter]
  refine ⟨hmem, ?_⟩
  simp
  omega

/-- Witness for C6 at a concrete expired-but-unswept entry. -/
theorem cache_expiry_witness :
    lookupFile [("k", ⟨100, 100, "k", "X"⟩)] "k" = some ⟨100, 100, "k", "X"⟩ ∧
    (⟨[("k", ⟨100, 100, "k", "X"⟩)], 100200, 0, 86400, 5⟩ : ParserState).cache_duration ≤
      (100200 : Int) - 100 ∧
    (100200 : Int) - 100 < 172800 ∧
    (_load_from_cache ⟨[("k", ⟨100, 100, "k", "X"⟩)], 100200, 0, 86400, 5⟩ "k" = none ∧
     ("k", (⟨100, 100, "k", "X"⟩ : CacheFile)) ∈
       ([("k", ⟨100, 100, "k", "X"⟩)] : List (String × CacheFile)) ∧
     ("k", (⟨100, 100, "k", "X"⟩ : CacheFile)) ∈
       (clear_old_cache ⟨[("k", ⟨100, 100, "k", "X"⟩)], 100200, 0, 86400, 5⟩ 172800).1.files) :=
  ⟨by decide, by decide, by decide,
   cache_expiry ⟨[("k", ⟨100, 100, "k", "X"⟩)], 100200, 0, 86400, 5⟩ "k" ⟨100, 100, "k", "X"⟩
     172800 (by decide) (by decide) (by decide)⟩

/-- C7 counterexample: a sequentially valid trace of two
`_enforce_rate_limit` calls (delay 5, fresh parser with `last_api_call = 0`)
whose start times are 100 and 101: the first call does not sleep (its
return times are `[100, 105]`), so the second call may start 1 second after
the first — the wall-clock time between the starts of consecutive calls can
be less than the configured delay. -/
theorem rate_limit_start_gap_cex :
    rl_valid 5 0 [100, 101] = true ∧
    rl_returns 5 0 [100, 101] = [100, 105] ∧
    ((101 : Int) - 100 < 5) :=
  ⟨by decide, by decide, by decide⟩

/-- C7 (amended): the rate limiter floors the spacing of its *returns* (the
moments the API calls launch, recorded into `last_api_call`), not of its
call starts: for every delay, initial `last_api_call` and sequence of call
start times, consecutive return times of `_enforce_rate_limit` are at least
`delay` apart — each call returns no earlier than `delay` seconds after the
previous call returned. -/
theorem rate_limit_return_gap (delay last : Int) (starts : List Int) :
    List.Chain' (fun a b => delay ≤ b - a) (rl_returns delay last starts) := by
  induction starts generalizing last with
  | nil => simp [rl_returns]
  | cons s rest ih =>
    rw [rl_returns]
    apply List.chain'_cons'.mpr
    refine ⟨?_, ih _⟩
    intro b hb
    cases rest with
    | nil => simp [rl_returns] at hb
    | cons s2 rest' =>
      rw [rl_returns] at hb
      simp at hb
      subst hb
      have h1 := enforce_fst_ge delay s2 (_enforce_rate_limit delay s last).2
      have h2 := enforce_snd_eq delay s last
      omega

/-- C9: empty responses are not cached.  If the cache misses for a
(chunk, instruction) pair and the extraction call succeeds on the first
attempt with whitespace-only (or empty) text, `process_single_chunk`
returns the empty-result marker `""`, the cache store is unchanged (no
entry was written for the key of that chunk), and a subsequent lookup of that
key against the resulting state still misses. -/
theorem empty_response_not_cached (api : String → Nat → ApiResult)
    (st : ParserState) (chunk parse_description t : String)
    (hmiss : _load_from_cache st (_get_cache_key chunk parse_description) = none)
    (hapi : api (create_parsing_prompt chunk parse_description) 0 = .success t)
    (hempty : pyStrip t = "") :
    process_single_chunk api st chunk parse_description 3 = .ok ("", enforceRateLimit st) ∧
    (enforceRateLimit st).files = st.files ∧
    _load_from_cache (enforceRateLimit st) (_get_cache_key chunk parse_description) = none := by
  refine ⟨?_, enforceRateLimit_files st, ?_⟩
  · unfold process_single_chunk
    simp only [hmiss]
    simp only [attemptLoop]
    rw [hapi]
    simp [hempty]
  · exact load_none_of_le st (enforceRateLimit st) _ (enforceRateLimit_files st)
      (enforceRateLimit_duration st) (enforceRateLimit_now_ge st) hmiss

/-- Witness for C9: a whitespace-only response on a fresh cache. -/
theorem empty_response_not_cached_witness :
    process_single_chunk (fun _ _ => ApiResult.success "   ") ⟨[], 50, 0, 100, 5⟩ "A" "q" 3 =
      .ok ("", enforceRateLimit ⟨[], 50, 0, 100, 5⟩) ∧
    (enforceRateLimit (⟨[], 50, 0, 100, 5⟩ : ParserState)).files = [] ∧
    _load_from_cache (enforceRateLimit ⟨[], 50, 0, 100, 5⟩) (_get_cache_key "A" "q") = none :=
  empty_response_not_cached (fun _ _ => ApiResult.success "   ") ⟨[], 50, 0, 100, 5⟩
    "A" "q" "   " (by decide) rfl (by decide)

/-! ### Lemmas for the batch-orchestrator claims -/

theorem load_from_empty (st : ParserState) (h : st.files = []) (k : String) :
    _load_from_cache st k = none := by
  unfold _load_from_cache _is_cache_valid lookupFile
  rw [h]
  simp [List.find?]

theorem load_single_other (st : ParserState) (k k' : String) (f : CacheFile)
    (h : st.files = [(k', f)]) (hne : k' ≠ k) : _load_from_cache st k = none := by
  unfold _load_from_cache _is_cache_valid lookupFile
  rw [h]
  have hb : (k' == k) = false := by simpa using hne
  simp [List.find?, hb]

/-- A cache miss followed by a first-attempt success with non-empty trimmed
text: the trimmed text is returned and cached. -/
theorem process_success (api : String → Nat → ApiResult) (st : ParserState)
    (chunk parse_description t : String)
    (hmiss : _load_from_cache st (_get_cache_key chunk parse_description) = none)
    (hapi : api (create_parsing_prompt chunk parse_description) 0 = .success t)
    (hne : pyStrip t ≠ "") :
    process_single_chunk api st chunk parse_description 3 =
      .ok (pyStrip t,
        _save_to_cache (enforceRateLimit st) (_get_cache_key chunk parse_description)
          (pyStrip t)) := by
  unfold process_single_chunk
  simp only [hmiss]
  simp only [attemptLoop]
  rw [hapi]
  simp [hne]

/-- A cache miss where every attempt raises a quota-type error: all three
retries are burnt and the quota-exhausted marker is returned. -/
theorem process_quota_exhaust (api : String → Nat → ApiResult) (st : ParserState)
    (chunk parse_description : String) (msgs : Nat → String)
    (hmiss : _load_from_cache st (_get_cache_key chunk parse_description) = none)
    (hB : ∀ n, api (create_parsing_prompt chunk parse_description) n = .failure (msgs n))
    (hBq : ∀ n, isQuotaError (msgs n) = true) :
    ∃ st', process_single_chunk api st chunk parse_description 3 = .ok (maxRetriesMsg, st') := by
  unfold process_single_chunk
  simp only [hmiss]
  simp only [attemptLoop, _handle_quota_error]
  simp [hB 0, hB 1, hB 2, hB 3, hBq 0, hBq 1, hBq 2, hBq 3]

/-- C2: early stop on quota exhaustion.  Over chunks `[A, B, C]` with an
initially empty cache: if the extraction for A succeeds on the first attempt with
an ordinary non-empty result and every attempt for B raises a quota-type
error, then `parse_with_gemini` returns exactly the section for A joined with the
stop notice for section 2 — no result for C appears, and since the
conclusion holds for every oracle regardless of its behaviour on C's
prompt, C is never processed: the loop halts at B. -/
theorem early_stop_on_quota
    (api : String → Nat → ApiResult) (A B C parse_description : String) (t0 : Int)
    (tA : String) (msgB : Nat → String)
    (hA : api (create_parsing_prompt A parse_description) 0 = .success tA)
    (hAne : pyStrip tA ≠ "")
    (hAx : pyStartsWith (pyStrip tA) "❌" = false)
    (hAph : strContains (pyLower (pyStrip tA)) "no relevant information found" = false)
    (hB : ∀ n, api (create_parsing_prompt B parse_description) n = .failure (msgB n))
    (hBq : ∀ n, isQuotaError (msgB n) = true)
    (hkey : _get_cache_key A parse_description ≠ _get_cache_key B parse_description) :
    parse_with_gemini api [] t0 [A, B, C] parse_description =
      String.intercalate "\n\n" [sectionHeader 1 (pyStrip tA), stopNotice 2] := by
  have hAne' : pyStrip (pyStrip tA) ≠ "" := by
    rw [pyStrip_idem]
    exact hAne
  have hmissA : _load_from_cache ⟨[], t0, 0, 86400, 5⟩ (_get_cache_key A parse_description) = none :=
    load_from_empty _ rfl _
  have hprocA := process_success api ⟨[], t0, 0, 86400, 5⟩ A parse_description tA hmissA hA hAne
  have hfilesA : (_save_to_cache (enforceRateLimit ⟨[], t0, 0, 86400, 5⟩)
      (_get_cache_key A parse_description) (pyStrip tA)).files =
      [(_get_cache_key A parse_description,
        ⟨(enforceRateLimit (⟨[], t0, 0, 86400, 5⟩ : ParserState)).now,
         (enforceRateLimit (⟨[], t0, 0, 86400, 5⟩ : ParserState)).now,
         _get_cache_key A parse_description, pyStrip tA⟩)] := rfl
  have hmissB := load_single_other _ (_get_cache_key B parse_description)
      (_get_cache_key A parse_description) _ hfilesA hkey
  obtain ⟨stB, hprocB⟩ := process_quota_exhaust api _ B parse_description msgB hmissB hB hBq
  have d1 : pyStartsWith maxRetriesMsg "❌" = true := by decide
  have d2 : strContains maxRetriesMsg "Max retries reached" = true := by decide
  unfold parse_with_gemini parse_body
  simp only [parseLoop, hprocA, hprocB]
  simp [hAne, hAne', hAx, hAph, d1, d2]

/-- Witness for C2: the concrete early-stop scenario. -/
theorem early_stop_on_quota_witness :
    parse_with_gemini apiQuotaAfterA [] 1000000 ["A", "B", "C"] "q" =
      String.intercalate "\n\n" [sectionHeader 1 (pyStrip " got it "), stopNotice 2] :=
  early_stop_on_quota apiQuotaAfterA "A" "B" "C" "q" 1000000 " got it " (fun _ => "429")
    (by decide) (by decide) (by decide) (by decide) (fun _ => rfl)
    (fun _ => show isQuotaError "429" = true from by decide) (by decide)

/-- C1: over chunks `["A", "B", "C"]` where the extraction for B raises the
non-quota error `"boom"` on every attempt while A and C succeed, iteration
indeed continues through C — but the combined output ALSO contains a
section for B holding the error text `"Error: boom"`: the orchestrator only
filters results that start with the `"❌"` glyph, and the transient-failure
marker `"Error: ..."` does not, so it is appended like a successful
result.  This refutes the claim that the output contains no result for
B. -/
theorem transient_failure_B_section_present :
    parse_with_gemini apiTransientB [] 1000000 ["A", "B", "C"] "q" =
      "--- From Section 1 ---\nresA\n\n--- From Section 2 ---\nError: boom\n\n--- From Section 3 ---\nresC" ∧
    strContains
      "--- From Section 1 ---\nresA\n\n--- From Section 2 ---\nError: boom\n\n--- From Section 3 ---\nresC"
      "--- From Section 2 ---\nError: boom" = true :=
  ⟨by decide, by decide⟩

/-- C8: on the empty chunk sequence the batch entry point does return a
string without raising — but not the apology: the summary's
quota-efficiency line divides by `total_chunks = 0`, the resulting
`ZeroDivisionError` is caught by the outer handler, and the returned string
is the error wrapper.  (Third conjunct: with a non-empty chunk list and no
accumulated results the fixed apology IS returned, confirming the intended
empty-accumulator behaviour.) -/
theorem empty_batch_returns_error_string :
    parse_with_gemini (fun _ _ => ApiResult.success "x") [] 1000000 [] "q" =
      "Error: division by zero. Please check your Google API key and quota limits." ∧
    parse_with_gemini (fun _ _ => ApiResult.success "x") [] 1000000 [] "q" ≠ apology ∧
    parse_with_gemini (fun _ _ => ApiResult.success "") [] 1000000 ["A"] "q" = apology :=
  ⟨by decide, by decide, by decide⟩

end Scraper
